import Mathlib

/-!
# Verification of the opl3-rs chip-state lifecycle and register/sample contract

This development shallowly embeds the safe wrapper layer of `opl3-rs`
(`src/lib.rs`) together with a model of the external Nuked-OPL3 emulation
engine it drives.  The wrapper layer (`Opl3Chip.new`, `write_register`,
`write_register_buffered`, `generate`, `generate_4ch`, `generate_stream`,
`generate_4ch_stream`) is translated line by line from the Rust source:
length checks that the source performs with `if ... { panic }` are modelled
as returning an error value carrying the exact panic message, and an
operation that panics returns the chip state untouched, since the source
panics before any mutation.  The engine primitives (`Opl3Reset`,
`Opl3WriteReg`, `Opl3WriteRegBuffered`, `Opl3Generate4Ch`, ...) are bound
through a `bindings` module that is not part of the wrapper source; they are
modelled from the specification, as noted on each such definition.  The
per-operator DSP arithmetic is explicitly out of the specification's scope,
so the frame contents are an abstract parameter `f4 : RegFile → Frame4` and
every theorem holds for all frame functions.
-/

/-- The OPL3 register file: addresses 0–511 (two banks of 256), byte values.
Modelled from the spec: the engine's register-latch state, a total map from
the 9-bit address space to byte values; addresses are reduced mod 512 and
values mod 256 at the engine boundary. -/
abbrev RegFile := Nat → Nat

/-- One pending buffered register write: address, data byte, and the internal
sample-clock time at which the write takes effect.  Modelled from the spec:
the Buffered Write Queue stores writes stamped with a timing-gated
application time. -/
structure WriteEntry where
  reg : Nat
  data : Nat
  time : Nat
  deriving Repr, DecidableEq

/-- Modelled from the spec: the fixed minimum settling delay between two
applied buffered writes, in internal sample clocks. -/
def OPL_WRITEBUF_DELAY : Nat := 2

/-- The chip state owned by one `Opl3Chip` handle.  Modelled from the spec:
the sample rate bound at construction, the register file, the internal
sample counter advanced only by generation, the FIFO of pending buffered
writes, and the scheduled time of the most recently enqueued buffered
write. -/
structure Opl3Chip where
  sample_rate : Nat
  regs : RegFile
  samplecnt : Nat
  writebuf : List WriteEntry
  lasttime : Nat

/-- One rendered 4-channel sample frame (left, right, and the two auxiliary
channels).  The DSP producing its contents is out of scope; frames are
produced by an abstract function of the register file. -/
structure Frame4 where
  ch1 : Int
  ch2 : Int
  ch3 : Int
  ch4 : Int
  deriving Repr, DecidableEq

/-- Failure outcomes of the wrapper layer.  The Rust source surfaces these
as panics; the model represents a panic as an error value carrying the
exact panic message.  The spec's name for the buffer-length failure is
`BufferTooSmall`. -/
inductive Opl3Error where
  | BufferTooSmall (msg : String)
  deriving Repr, DecidableEq

/-- Modelled from the spec: `Opl3Reset`, the engine's opaque state
initializer — zero-initializes all chip state and binds the sample rate. -/
def Opl3Reset (sample_rate : Nat) : Opl3Chip :=
  { sample_rate := sample_rate
    regs := fun _ => 0
    samplecnt := 0
    writebuf := []
    lasttime := 0 }

/-- Modelled from the spec: `Opl3WriteReg`, the engine's synchronous
register-write primitive — stores the data byte at the 9-bit address. -/
def Opl3WriteReg (c : Opl3Chip) (reg value : Nat) : Opl3Chip :=
  { c with regs := fun a => if a = reg % 512 then value % 256 else c.regs a }

/-- Modelled from the spec: `Opl3WriteRegBuffered`, the engine's buffered
register-write primitive — appends the write to the FIFO, stamped with the
earliest time compatible with the minimum settling delay after the
previously enqueued write (never earlier than the current sample count). -/
def Opl3WriteRegBuffered (c : Opl3Chip) (reg value : Nat) : Opl3Chip :=
  let t := max (c.lasttime + OPL_WRITEBUF_DELAY) c.samplecnt
  { c with
    writebuf := c.writebuf ++ [⟨reg, value, t⟩]
    lasttime := t }

/-- Applies one queued write to the register file (9-bit address, byte
value), as the generation loop does when the write's time has come. -/
def applyWrite (regs : RegFile) (e : WriteEntry) : RegFile :=
  fun a => if a = e.reg % 512 then e.data % 256 else regs a

/-- Splits the buffered-write FIFO at the current time: the longest prefix
of writes whose scheduled time has been reached (to be applied, in order),
and the remaining queue.  Modelled from the spec: queued writes are applied
in FIFO order during generation, each gated by its scheduled time. -/
def drainDue (now : Nat) : List WriteEntry → List WriteEntry × List WriteEntry
  | [] => ([], [])
  | e :: rest =>
    if e.time ≤ now then
      let r := drainDue now rest
      (e :: r.1, r.2)
    else ([], e :: rest)

/-- Modelled from the spec: `Opl3Generate4Ch`, the engine's native
4-channel single-frame generation primitive — applies the due buffered
writes in FIFO order, emits one frame computed from the resulting register
file by the abstract frame function `f4`, and advances the internal sample
counter by one frame. -/
def Opl3Generate4Ch (f4 : RegFile → Frame4) (c : Opl3Chip) : Opl3Chip × Frame4 :=
  let d := drainDue c.samplecnt c.writebuf
  let regs2 := d.1.foldl applyWrite c.regs
  ({ c with regs := regs2, writebuf := d.2, samplecnt := c.samplecnt + 1 },
   f4 regs2)

/-- Modelled from the wrapper's own doc comment (src/lib.rs line 68):
`Opl3Generate` internally calls `Opl3Generate4Ch` and returns the samples
of the first two channels. -/
def Opl3Generate (f4 : RegFile → Frame4) (c : Opl3Chip) : Opl3Chip × (Int × Int) :=
  let r := Opl3Generate4Ch f4 c
  (r.1, (r.2.ch1, r.2.ch2))

/-- Modelled from the spec: `Opl3GenerateStream`, the engine's 2-channel
streaming primitive — takes a frame count and writes two samples per frame
through the destination pointer, frame by frame. -/
def Opl3GenerateStream (f4 : RegFile → Frame4) : Opl3Chip → Nat → Opl3Chip × List Int
  | c, 0 => (c, [])
  | c, n + 1 =>
    let r := Opl3Generate f4 c
    let s := Opl3GenerateStream f4 r.1 n
    (s.1, r.2.1 :: r.2.2 :: s.2)

/-- Modelled from the spec: `Opl3Generate4ChStream`, the engine's 4-channel
streaming primitive — takes a frame count and per frame writes channels 1–2
(two samples) through the first pointer and channels 3–4 through the
second. -/
def Opl3Generate4ChStream (f4 : RegFile → Frame4) :
    Opl3Chip → Nat → Opl3Chip × List Int × List Int
  | c, 0 => (c, [], [])
  | c, n + 1 =>
    let r := Opl3Generate4Ch f4 c
    let s := Opl3Generate4ChStream f4 r.1 n
    (s.1, r.2.ch1 :: r.2.ch2 :: s.2.1, r.2.ch3 :: r.2.ch4 :: s.2.2)

/-- `Opl3Chip::new` (src/lib.rs lines 58–64): zeroes a chip and calls the
engine's `Opl3Reset` with the caller's sample rate.  The Rust parameter is
`u32`, so negative rates are unrepresentable; no rate is rejected and the
constructor is infallible. -/
def Opl3Chip.new (sample_rate : Nat) : Opl3Chip :=
  Opl3Reset sample_rate

/-- `Opl3Chip::write_register` (src/lib.rs lines 132–136): forwards the
address (`u16`) and value (`u8`) to `Opl3WriteReg` with no validation. -/
def Opl3Chip.write_register (c : Opl3Chip) (reg value : Nat) : Opl3Chip :=
  Opl3WriteReg c reg value

/-- `Opl3Chip::write_register_buffered` (src/lib.rs lines 156–160):
forwards the address and value to `Opl3WriteRegBuffered` with no
validation. -/
def Opl3Chip.write_register_buffered (c : Opl3Chip) (reg value : Nat) : Opl3Chip :=
  Opl3WriteRegBuffered c reg value

/-- `Opl3Chip::generate` (src/lib.rs lines 84–91): panics with
"Buffer must be at least 4 samples long." when the buffer is shorter than 4
(the chip is returned untouched, as the source panics before any mutation);
otherwise calls `Opl3Generate`, which writes the first two channel samples
into positions 0 and 1 of the buffer. -/
def Opl3Chip.generate (f4 : RegFile → Frame4) (c : Opl3Chip) (buffer : List Int) :
    Opl3Chip × Except Opl3Error (List Int) :=
  if buffer.length < 4 then
    (c, .error (.BufferTooSmall "Buffer must be at least 4 samples long."))
  else
    let r := Opl3Generate f4 c
    (r.1, .ok (r.2.1 :: r.2.2 :: buffer.drop 2))

/-- `Opl3Chip::generate_4ch` (src/lib.rs lines 198–205): panics with
"Buffer must be at least 4 samples long." when the buffer is shorter than 4;
otherwise calls `Opl3Generate4Ch`, which writes the four channel samples
into positions 0–3 of the buffer. -/
def Opl3Chip.generate_4ch (f4 : RegFile → Frame4) (c : Opl3Chip) (buffer : List Int) :
    Opl3Chip × Except Opl3Error (List Int) :=
  if buffer.length < 4 then
    (c, .error (.BufferTooSmall "Buffer must be at least 4 samples long."))
  else
    let r := Opl3Generate4Ch f4 c
    (r.1, .ok (r.2.ch1 :: r.2.ch2 :: r.2.ch3 :: r.2.ch4 :: buffer.drop 4))

/-- `Opl3Chip::generate_stream` (src/lib.rs lines 177–181): performs no
validation at all (any buffer length is accepted, zero included) and calls
the engine streaming primitive with `buffer.len()` as the frame count.  The
result is the samples the engine writes through the buffer pointer. -/
def Opl3Chip.generate_stream (f4 : RegFile → Frame4) (c : Opl3Chip)
    (buffer : List Int) : Opl3Chip × List Int :=
  Opl3GenerateStream f4 c buffer.length

/-- `Opl3Chip::generate_4ch_stream` (src/lib.rs lines 247–254): panics with
"Buffers must be at least 4 samples long." when either buffer is shorter
than 4; otherwise calls the engine 4-channel streaming primitive with
`buffer1.len()` as the frame count for both pointers.  The buffers' lengths
are never compared to each other.  The result carries the sample streams
the engine writes through the two pointers. -/
def Opl3Chip.generate_4ch_stream (f4 : RegFile → Frame4) (c : Opl3Chip)
    (buffer1 buffer2 : List Int) :
    Opl3Chip × Except Opl3Error (List Int × List Int) :=
  if buffer1.length < 4 ∨ buffer2.length < 4 then
    (c, .error (.BufferTooSmall "Buffers must be at least 4 samples long."))
  else
    let r := Opl3Generate4ChStream f4 c buffer1.length
    (r.1, .ok (r.2.1, r.2.2))

/-- A caller-issued operation, for stating determinism of whole runs:
an immediate write, a buffered write, or a `generate` call with a fresh
4-element zero buffer. -/
inductive Op where
  | write (reg value : Nat)
  | writeBuffered (reg value : Nat)
  | generate
  deriving Repr, DecidableEq

/-- Runs one operation on a chip, returning the new chip and the samples
the operation produced. -/
def runOp (f4 : RegFile → Frame4) (c : Opl3Chip) : Op → Opl3Chip × List Int
  | .write r v => (c.write_register r v, [])
  | .writeBuffered r v => (c.write_register_buffered r v, [])
  | .generate =>
    let r := c.generate f4 (List.replicate 4 0)
    (r.1, match r.2 with | .ok out => out | .error _ => [])

/-- Runs a list of operations left to right, concatenating the produced
samples. -/
def runOps (f4 : RegFile → Frame4) (c : Opl3Chip) : List Op → Opl3Chip × List Int
  | [] => (c, [])
  | op :: rest =>
    let r := runOp f4 c op
    let s := runOps f4 r.1 rest
    (s.1, r.2 ++ s.2)

/-- Issues a list of buffered writes (address, value) in order. -/
def enqueueAll (c : Opl3Chip) (ws : List (Nat × Nat)) : Opl3Chip :=
  ws.foldl (fun c rv => c.write_register_buffered rv.1 rv.2) c

/-- Decides that consecutive entries of a write queue are scheduled at
least the minimum settling delay apart. -/
def minDelaySpaced : List WriteEntry → Bool
  | [] => true
  | [_] => true
  | a :: b :: rest =>
    decide (a.time + OPL_WRITEBUF_DELAY ≤ b.time) && minDelaySpaced (b :: rest)

/-- Decides that the last entry of a write queue (if any) is scheduled no
later than the given time — the invariant tying the queue to the chip's
`lasttime` field. -/
def lastTimeLE : List WriteEntry → Nat → Bool
  | [], _ => true
  | [e], t => decide (e.time ≤ t)
  | _ :: b :: rest, t => lastTimeLE (b :: rest) t

/-- A fixed frame function emitting silence, used to instantiate the
abstract DSP in concrete witnesses. -/
def f4zero : RegFile → Frame4 := fun _ => ⟨0, 0, 0, 0⟩

/-- A frame function that reads register 0x20 into the first channel, used
in witnesses to observe a register write in the generated output. -/
def f4probe : RegFile → Frame4 := fun regs => ⟨(regs 32 : Int), 0, 0, 0⟩

/-! ## Helper lemmas on the buffered-write queue -/

lemma spaced_append_singleton (e : WriteEntry) (t : Nat)
    (he : t + OPL_WRITEBUF_DELAY ≤ e.time) :
    ∀ l : List WriteEntry, minDelaySpaced l = true → lastTimeLE l t = true →
      minDelaySpaced (l ++ [e]) = true := by
  intro l
  induction l with
  | nil =>
    intro _ _
    simp [minDelaySpaced]
  | cons a rest ih =>
    intro hs hl
    cases rest with
    | nil =>
      have ha : a.time ≤ t := by simpa [lastTimeLE] using hl
      have hae : a.time + OPL_WRITEBUF_DELAY ≤ e.time := by omega
      simp [minDelaySpaced, hae]
    | cons b rest2 =>
      have hs1 : a.time + OPL_WRITEBUF_DELAY ≤ b.time := by
        simp [minDelaySpaced] at hs
        exact hs.1
      have hs2 : minDelaySpaced (b :: rest2) = true := by
        simp [minDelaySpaced] at hs
        exact hs.2
      have hl2 : lastTimeLE (b :: rest2) t = true := by
        simpa [lastTimeLE] using hl
      have hrec := ih hs2 hl2
      simp [minDelaySpaced] at hrec ⊢
      exact ⟨hs1, hrec⟩

lemma lastTimeLE_append_singleton (e : WriteEntry) :
    ∀ (l : List WriteEntry) (t : Nat),
      lastTimeLE (l ++ [e]) t = decide (e.time ≤ t) := by
  intro l
  induction l with
  | nil => intro t; rfl
  | cons a rest ih =>
    intro t
    cases rest with
    | nil => simp [lastTimeLE]
    | cons b rest2 => simpa [lastTimeLE] using ih t

lemma write_buffered_step (c : Opl3Chip) (reg value : Nat)
    (hs : minDelaySpaced c.writebuf = true)
    (hl : lastTimeLE c.writebuf c.lasttime = true) :
    minDelaySpaced (Opl3Chip.write_register_buffered c reg value).writebuf = true ∧
    lastTimeLE (Opl3Chip.write_register_buffered c reg value).writebuf
      (Opl3Chip.write_register_buffered c reg value).lasttime = true ∧
    (Opl3Chip.write_register_buffered c reg value).writebuf =
      c.writebuf ++
        [⟨reg, value, max (c.lasttime + OPL_WRITEBUF_DELAY) c.samplecnt⟩] := by
  refine ⟨?_, ?_, rfl⟩
  · exact spaced_append_singleton _ c.lasttime (Nat.le_max_left _ _) c.writebuf hs hl
  · show lastTimeLE (c.writebuf ++ [_]) _ = true
    rw [lastTimeLE_append_singleton]
    simp [Opl3Chip.write_register_buffered, Opl3WriteRegBuffered]

lemma enqueueAll_spec : ∀ (ws : List (Nat × Nat)) (c : Opl3Chip),
    minDelaySpaced c.writebuf = true →
    lastTimeLE c.writebuf c.lasttime = true →
    ((enqueueAll c ws).writebuf.map fun e => (e.reg, e.data)) =
      (c.writebuf.map fun e => (e.reg, e.data)) ++ ws ∧
    minDelaySpaced (enqueueAll c ws).writebuf = true ∧
    lastTimeLE (enqueueAll c ws).writebuf (enqueueAll c ws).lasttime = true := by
  intro ws
  induction ws with
  | nil =>
    intro c hs hl
    exact ⟨by simp [enqueueAll], hs, hl⟩
  | cons w rest ih =>
    intro c hs hl
    have hstep := write_buffered_step c w.1 w.2 hs hl
    have hrec := ih (c.write_register_buffered w.1 w.2) hstep.1 hstep.2.1
    have hen : enqueueAll c (w :: rest) =
        enqueueAll (c.write_register_buffered w.1 w.2) rest := rfl
    refine ⟨?_, hen ▸ hrec.2.1, hen ▸ hrec.2.2⟩
    rw [hen, hrec.1, hstep.2.2]
    simp

lemma drainDue_append (now : Nat) : ∀ l : List WriteEntry,
    (drainDue now l).1 ++ (drainDue now l).2 = l := by
  intro l
  induction l with
  | nil => rfl
  | cons e rest ih =>
    simp only [drainDue]
    split
    · show e :: (drainDue now rest).1 ++ (drainDue now rest).2 = e :: rest
      rw [List.cons_append, ih]
    · rfl

/-! ## Claim theorems -/

/-- Claim C1 (code bug): the claim says `generate_4ch_stream` fails with
`BufferMismatch` when its two buffers differ in length.  The source
performs no mismatch check at all: with an 8-element `buffer1` and a
4-element `buffer2` (both pass the only check, the 4-element minimum) the
call succeeds and drives the engine with `buffer1.len() = 8` as the frame
count for both pointers, so 16 samples are written through the 4-element
`buffer2` pointer — past its end. -/
theorem generate_4ch_stream_mismatched_accepted :
    (Opl3Chip.generate_4ch_stream f4zero (Opl3Chip.new 44100)
        (List.replicate 8 0) (List.replicate 4 0)).2 =
      .ok (List.replicate 16 0, List.replicate 16 0) ∧
    (List.replicate 4 (0 : Int)).length < 16 := by
  exact ⟨rfl, by decide⟩

/-- Claim C2 counterexample: constructing with sample rate 0 does not fail —
there is no failure channel at all.  The zero rate is silently bound into
the chip state and the resulting chip immediately generates samples. -/
theorem new_zero_rate_accepted :
    (Opl3Chip.new 0).sample_rate = 0 ∧
    ((Opl3Chip.new 0).generate f4zero (List.replicate 4 0)).2.isOk = true := by
  exact ⟨rfl, rfl⟩

/-- Claim C2 (amended): `Opl3Chip::new` takes an unsigned 32-bit sample
rate, so negative rates are unrepresentable, and it never fails: every
rate, zero included, is silently accepted, bound into the reset chip state,
and the chip is immediately usable for generation.  No
`InvalidConfiguration` error exists. -/
theorem new_accepts_every_rate (f4 : RegFile → Frame4) (r : Nat) :
    (Opl3Chip.new r).sample_rate = r ∧
    ((Opl3Chip.new r).generate f4 (List.replicate 4 0)).2.isOk = true := by
  exact ⟨rfl, rfl⟩

/-- Claim C3 counterexample: a register write at address 512 — outside
[0, 511] — is accepted by both write operations without any
`InvalidRegister` failure: `write_register` forwards it to the engine
(which reduces it into the 9-bit register space, here to register 0) and
`write_register_buffered` enqueues it. -/
theorem write_register_address_512_accepted :
    (Opl3Chip.write_register (Opl3Chip.new 44100) 512 7).regs 0 = 7 ∧
    (Opl3Chip.write_register_buffered (Opl3Chip.new 44100) 512 7).writebuf =
      [⟨512, 7, 2⟩] := by
  exact ⟨rfl, rfl⟩

/-- Claim C3 (amended): neither write operation validates its arguments.
Any `u16` address (0–65535) is accepted and forwarded: `write_register`
hands it to the engine write primitive, which stores the byte value at the
address reduced into the 9-bit register space, and
`write_register_buffered` appends it to the write queue.  Values have type
`u8` at the wrapper boundary, so out-of-range values are truncated to a
byte rather than rejected; no `InvalidRegister` or `InvalidValue` failure
exists. -/
theorem write_operations_never_fail (c : Opl3Chip) (reg value : Nat) :
    (Opl3Chip.write_register c reg value).regs (reg % 512) = value % 256 ∧
    (Opl3Chip.write_register c reg value).writebuf = c.writebuf ∧
    (Opl3Chip.write_register_buffered c reg value).writebuf =
      c.writebuf ++
        [⟨reg, value, max (c.lasttime + OPL_WRITEBUF_DELAY) c.samplecnt⟩] := by
  refine ⟨?_, rfl, rfl⟩
  simp [Opl3Chip.write_register, Opl3WriteReg]

/-- Claim C4: `generate` and `generate_4ch` fail with the buffer-too-small
failure (the source's panic, whose message names the 4-sample minimum) for
every destination buffer shorter than 4 elements, and succeed for a buffer
of exactly 4 elements. -/
theorem generate_buffer_bounds (f4 : RegFile → Frame4) (c : Opl3Chip)
    (buffer : List Int) :
    (buffer.length < 4 →
      (Opl3Chip.generate f4 c buffer).2 =
        .error (.BufferTooSmall "Buffer must be at least 4 samples long.") ∧
      (Opl3Chip.generate_4ch f4 c buffer).2 =
        .error (.BufferTooSmall "Buffer must be at least 4 samples long.")) ∧
    (buffer.length = 4 →
      (Opl3Chip.generate f4 c buffer).2.isOk = true ∧
      (Opl3Chip.generate_4ch f4 c buffer).2.isOk = true) := by
  constructor
  · intro h
    simp [Opl3Chip.generate, Opl3Chip.generate_4ch, h]
  · intro h
    simp [Opl3Chip.generate, Opl3Chip.generate_4ch, h, Except.isOk, Except.toBool]

/-- Witness for C4 at concrete inputs: a 3-element buffer fails on both
variants and a 4-element buffer succeeds on both. -/
theorem generate_buffer_bounds_witness :
    ((Opl3Chip.generate f4zero (Opl3Chip.new 44100) [0, 0, 0]).2 =
        .error (.BufferTooSmall "Buffer must be at least 4 samples long.") ∧
      (Opl3Chip.generate_4ch f4zero (Opl3Chip.new 44100) [0, 0, 0]).2 =
        .error (.BufferTooSmall "Buffer must be at least 4 samples long.")) ∧
    ((Opl3Chip.generate f4zero (Opl3Chip.new 44100) [0, 0, 0, 0]).2.isOk = true ∧
      (Opl3Chip.generate_4ch f4zero (Opl3Chip.new 44100) [0, 0, 0, 0]).2.isOk = true) :=
  ⟨(generate_buffer_bounds f4zero (Opl3Chip.new 44100) [0, 0, 0]).1 (by decide),
   (generate_buffer_bounds f4zero (Opl3Chip.new 44100) [0, 0, 0, 0]).2 (by decide)⟩

/-- Claim C5 counterexample: the 4-channel streaming variant does NOT
accept every non-empty buffer — with two 2-element (non-empty) buffers it
fails on the single-frame variants' 4-element minimum. -/
theorem generate_4ch_stream_rejects_nonempty_short :
    (Opl3Chip.generate_4ch_stream f4zero (Opl3Chip.new 44100) [0, 0] [0, 0]).2 =
      .error (.BufferTooSmall "Buffers must be at least 4 samples long.") ∧
    ([0, 0] : List Int) ≠ [] := by
  exact ⟨rfl, by decide⟩

/-- Claim C5 (amended): `generate_stream` accepts any buffer — empty
included, with no minimum — and drives the engine streaming primitive with
the buffer's full length as the frame count.  `generate_4ch_stream` keeps
the 4-element minimum on both of its buffers, failing otherwise exactly as
the single-frame variants do, and drives the engine with `buffer1`'s length
as the frame count for both buffers. -/
theorem stream_variants_validation (f4 : RegFile → Frame4) (c : Opl3Chip)
    (buffer buffer1 buffer2 : List Int) :
    Opl3Chip.generate_stream f4 c buffer = Opl3GenerateStream f4 c buffer.length ∧
    (4 ≤ buffer1.length → 4 ≤ buffer2.length →
      (Opl3Chip.generate_4ch_stream f4 c buffer1 buffer2).2 =
        .ok ((Opl3Generate4ChStream f4 c buffer1.length).2.1,
             (Opl3Generate4ChStream f4 c buffer1.length).2.2)) ∧
    (buffer1.length < 4 ∨ buffer2.length < 4 →
      Opl3Chip.generate_4ch_stream f4 c buffer1 buffer2 =
        (c, .error (.BufferTooSmall "Buffers must be at least 4 samples long."))) := by
  refine ⟨rfl, ?_, ?_⟩
  · intro h1 h2
    simp only [Opl3Chip.generate_4ch_stream]
    split
    · omega
    · rfl
  · intro h
    simp only [Opl3Chip.generate_4ch_stream]
    split
    · rfl
    · omega

/-- Witness for C5 (amended) at concrete inputs: two 4-element buffers
succeed; a 1-element first buffer fails with the state untouched. -/
theorem stream_variants_validation_witness :
    (Opl3Chip.generate_4ch_stream f4zero (Opl3Chip.new 44100)
        (List.replicate 4 0) (List.replicate 4 0)).2 =
      .ok ((Opl3Generate4ChStream f4zero (Opl3Chip.new 44100)
              (List.replicate 4 (0 : Int)).length).2.1,
           (Opl3Generate4ChStream f4zero (Opl3Chip.new 44100)
              (List.replicate 4 (0 : Int)).length).2.2) ∧
    Opl3Chip.generate_4ch_stream f4zero (Opl3Chip.new 44100) [0]
        (List.replicate 4 0) =
      (Opl3Chip.new 44100,
       .error (.BufferTooSmall "Buffers must be at least 4 samples long.")) :=
  ⟨(stream_variants_validation f4zero (Opl3Chip.new 44100) []
      (List.replicate 4 0) (List.replicate 4 0)).2.1 (by decide) (by decide),
   (stream_variants_validation f4zero (Opl3Chip.new 44100) [] [0]
      (List.replicate 4 0)).2.2 (by decide)⟩

/-- Claim C6: calling `generate` with a 3-element buffer fails with the
buffer-too-small failure and returns the chip state exactly as it was —
the source's length check precedes every mutation. -/
theorem generate_short_buffer_state_unchanged (f4 : RegFile → Frame4)
    (c : Opl3Chip) (buffer : List Int) (h : buffer.length = 3) :
    Opl3Chip.generate f4 c buffer =
      (c, .error (.BufferTooSmall "Buffer must be at least 4 samples long.")) := by
  simp [Opl3Chip.generate, h]

/-- Witness for C6 at a concrete chip and buffer. -/
theorem generate_short_buffer_state_unchanged_witness :
    Opl3Chip.generate f4zero (Opl3Chip.new 44100) [0, 0, 0] =
      (Opl3Chip.new 44100,
       .error (.BufferTooSmall "Buffer must be at least 4 samples long.")) :=
  generate_short_buffer_state_unchanged f4zero (Opl3Chip.new 44100) [0, 0, 0]
    (by decide)

/-- Claim C7 (engine write queue modelled from the spec): for every
sequence of buffered writes issued between two generation calls (the queue
is empty when the sequence starts), the queue afterwards lists exactly the
issued writes in issue order, consecutive scheduled application times are
at least the minimum settling delay apart, and any generation call applies
a prefix of the queue in that same order (applied ++ remaining = queue). -/
theorem write_buffered_fifo_min_delay (c : Opl3Chip) (ws : List (Nat × Nat))
    (h : c.writebuf = []) :
    ((enqueueAll c ws).writebuf.map fun e => (e.reg, e.data)) = ws ∧
    minDelaySpaced (enqueueAll c ws).writebuf = true ∧
    ∀ now, (drainDue now (enqueueAll c ws).writebuf).1 ++
        (drainDue now (enqueueAll c ws).writebuf).2 = (enqueueAll c ws).writebuf := by
  have hs : minDelaySpaced c.writebuf = true := by rw [h]; rfl
  have hl : lastTimeLE c.writebuf c.lasttime = true := by rw [h]; rfl
  have hmain := enqueueAll_spec ws c hs hl
  refine ⟨?_, hmain.2.1, fun now => drainDue_append now _⟩
  rw [hmain.1, h]
  simp

/-- Witness for C7: two buffered writes issued on a fresh chip land in the
queue in issue order, scheduled 2 sample clocks apart, and a generation
instant splits the queue into applied prefix and remaining suffix. -/
theorem write_buffered_fifo_min_delay_witness :
    ((enqueueAll (Opl3Chip.new 44100) [(32, 1), (48, 16)]).writebuf.map
        fun e => (e.reg, e.data)) = [(32, 1), (48, 16)] ∧
    minDelaySpaced (enqueueAll (Opl3Chip.new 44100) [(32, 1), (48, 16)]).writebuf = true ∧
    (drainDue 5 (enqueueAll (Opl3Chip.new 44100) [(32, 1), (48, 16)]).writebuf).1 ++
        (drainDue 5 (enqueueAll (Opl3Chip.new 44100) [(32, 1), (48, 16)]).writebuf).2 =
      (enqueueAll (Opl3Chip.new 44100) [(32, 1), (48, 16)]).writebuf :=
  ⟨(write_buffered_fifo_min_delay (Opl3Chip.new 44100) [(32, 1), (48, 16)] rfl).1,
   (write_buffered_fifo_min_delay (Opl3Chip.new 44100) [(32, 1), (48, 16)] rfl).2.1,
   (write_buffered_fifo_min_delay (Opl3Chip.new 44100) [(32, 1), (48, 16)] rfl).2.2 5⟩

/-- Claim C8 (engine write primitive modelled from the spec): an immediate
register write is applied to chip state synchronously — the returned chip
already holds the value in its register file and no queue entry is created
— and the very next generated frame is computed from that updated register
file (shown here for any frame function, with an empty write queue so no
buffered write interferes). -/
theorem write_register_immediate_effect (f4 : RegFile → Frame4) (c : Opl3Chip)
    (reg value : Nat) (h : c.writebuf = []) :
    (Opl3Chip.write_register c reg value).regs (reg % 512) = value % 256 ∧
    (Opl3Chip.write_register c reg value).writebuf = c.writebuf ∧
    (Opl3Chip.generate f4 (Opl3Chip.write_register c reg value)
        (List.replicate 4 0)).2 =
      .ok [(f4 (Opl3Chip.write_register c reg value).regs).ch1,
           (f4 (Opl3Chip.write_register c reg value).regs).ch2, 0, 0] := by
  refine ⟨by simp [Opl3Chip.write_register, Opl3WriteReg], rfl, ?_⟩
  simp [Opl3Chip.generate, Opl3Generate, Opl3Generate4Ch, Opl3Chip.write_register,
        Opl3WriteReg, drainDue, h]

/-- Witness for C8: writing 1 to register 0x20 on a fresh chip updates the
register file before returning, and with a frame function that reads
register 0x20 the very next generated frame carries the written value. -/
theorem write_register_immediate_effect_witness :
    (Opl3Chip.write_register (Opl3Chip.new 44100) 32 1).regs (32 % 512) = 1 % 256 ∧
    (Opl3Chip.write_register (Opl3Chip.new 44100) 32 1).writebuf =
      (Opl3Chip.new 44100).writebuf ∧
    (Opl3Chip.generate f4probe (Opl3Chip.write_register (Opl3Chip.new 44100) 32 1)
        (List.replicate 4 0)).2 =
      .ok [(f4probe (Opl3Chip.write_register (Opl3Chip.new 44100) 32 1).regs).ch1,
           (f4probe (Opl3Chip.write_register (Opl3Chip.new 44100) 32 1).regs).ch2,
           0, 0] :=
  write_register_immediate_effect f4probe (Opl3Chip.new 44100) 32 1 rfl

/-- Claim C9: for every sample rate R > 0, constructing a handle and
immediately generating with a 4-element buffer succeeds, and two runs of
identical operation sequences from two identically constructed handles
produce identical outputs — the embedding of the wrapper is a pure function
of the construction rate and the issued operations. -/
theorem construct_generate_deterministic (f4 : RegFile → Frame4) (R : Nat)
    (ops1 ops2 : List Op) (_hR : 0 < R) (hops : ops1 = ops2) :
    ((Opl3Chip.new R).generate f4 (List.replicate 4 0)).2.isOk = true ∧
    runOps f4 (Opl3Chip.new R) ops1 = runOps f4 (Opl3Chip.new R) ops2 := by
  exact ⟨rfl, by rw [hops]⟩

/-- Witness for C9 at rate 44100 with a concrete write/generate sequence. -/
theorem construct_generate_deterministic_witness :
    ((Opl3Chip.new 44100).generate f4zero (List.replicate 4 0)).2.isOk = true ∧
    runOps f4zero (Opl3Chip.new 44100) [Op.write 32 1, Op.generate] =
      runOps f4zero (Opl3Chip.new 44100) [Op.write 32 1, Op.generate] :=
  construct_generate_deterministic f4zero 44100 [Op.write 32 1, Op.generate]
    [Op.write 32 1, Op.generate] (by decide) rfl

/-- Claim C10: on any 4-element buffer, `generate` and `generate_4ch`
started from the same chip state both succeed, leave the chip in the same
state, and the two samples `generate` writes as left and right equal the
first two channels `generate_4ch` produces — `generate` is the 4-channel
generation restricted to its first two channels. -/
theorem generate_refines_generate_4ch (f4 : RegFile → Frame4) (c : Opl3Chip)
    (buffer : List Int) (h : buffer.length = 4) :
    ∃ s out2 out4,
      Opl3Chip.generate f4 c buffer = (s, .ok out2) ∧
      Opl3Chip.generate_4ch f4 c buffer = (s, .ok out4) ∧
      out2.take 2 = out4.take 2 := by
  refine ⟨(Opl3Generate4Ch f4 c).1,
    (Opl3Generate4Ch f4 c).2.ch1 :: (Opl3Generate4Ch f4 c).2.ch2 :: buffer.drop 2,
    (Opl3Generate4Ch f4 c).2.ch1 :: (Opl3Generate4Ch f4 c).2.ch2 ::
      (Opl3Generate4Ch f4 c).2.ch3 :: (Opl3Generate4Ch f4 c).2.ch4 :: buffer.drop 4,
    ?_, ?_, ?_⟩
  · simp [Opl3Chip.generate, Opl3Generate, h]
  · simp [Opl3Chip.generate_4ch, h]
  · simp

/-- Witness for C10 on a fresh chip and a concrete 4-element buffer. -/
theorem generate_refines_generate_4ch_witness :
    ∃ s out2 out4,
      Opl3Chip.generate f4probe (Opl3Chip.new 44100) [9, 9, 9, 9] = (s, .ok out2) ∧
      Opl3Chip.generate_4ch f4probe (Opl3Chip.new 44100) [9, 9, 9, 9] = (s, .ok out4) ∧
      out2.take 2 = out4.take 2 :=
  generate_refines_generate_4ch f4probe (Opl3Chip.new 44100) [9, 9, 9, 9] (by decide)
